import Mathlib

/-!
Shallow embedding of the k8s-rag repository.

Embedded from the sources:
  * `scripts/chroma_connection.py` — lazily initialized module-global chromadb
    client and collection (`get_chroma_client`, `get_chroma_collection`).
  * `semantic_test.py` — the `ensure_data_loaded` "data already loaded"
    heuristic.
Components that the repository serves as `scripts.app:app` (the EmbeddingStore
wrapper, the RagPipeline, the MockGenerator and the three HTTP operations) are
exercised by `semantic_test.py` but their module is not among the sources;
those definitions are modelled from the spec and say so in their doc comments.
-/

namespace K8sRag

/-- Process environment as read by `os.getenv`: a partial map from variable
names to values. -/
def Env : Type := String → Option String

/-- An environment with no variables set (in particular, no credentials). -/
def envEmpty : Env := fun _ => none

/-- The data a `chromadb.CloudClient` is constructed with in
`scripts/chroma_connection.py`: the three credential values read from the
environment, each possibly absent (`os.getenv` returns `None` when unset). -/
structure ClientV where
  api_key : Option String
  tenant : Option String
  database : Option String
deriving DecidableEq, Repr

/-- `chromadb.CloudClient(api_key=…, tenant=…, database=…)`: external
constructor, modelled as packaging exactly the values passed to it. -/
def CloudClient (apiKey tenant database : Option String) : ClientV :=
  ⟨apiKey, tenant, database⟩

/-- A collection handle: external object returned by
`client.get_or_create_collection(name=…)`, modelled as the client it was
requested from together with the requested name. -/
structure CollectionV where
  boundClient : ClientV
  name : String
deriving DecidableEq, Repr

/-- `client.get_or_create_collection(name=…)`: external call, modelled as
returning the handle determined by the client and the requested name. -/
def get_or_create_collection (c : ClientV) (name : String) : CollectionV :=
  ⟨c, name⟩

/-- The module-global state of `scripts/chroma_connection.py`: the cached
`_client` and `_collection` globals, plus instrumentation counting how many
times each construction (the `CloudClient` call, the
`get_or_create_collection` call) has been executed. -/
structure ConnState where
  client : Option ClientV
  collection : Option CollectionV
  clientConstructs : Nat
  collConstructs : Nat
deriving DecidableEq, Repr

/-- Module-load state: `_client = None`, `_collection = None`, nothing
constructed yet. -/
def initState : ConnState := ⟨none, none, 0, 0⟩

/-- `get_chroma_client` from `scripts/chroma_connection.py`, sequential
semantics: if the global `_client` is `None`, construct a `CloudClient` from
the three `CHROMA_*` environment variables and cache it; return the cached
client. The source contains no validation and no `raise`. -/
def get_chroma_client (env : Env) (s : ConnState) : ClientV × ConnState :=
  match s.client with
  | some c => (c, s)
  | none =>
      let c := CloudClient (env "CHROMA_API_KEY") (env "CHROMA_TENANT")
        (env "CHROMA_DATABASE")
      (c, { s with client := some c, clientConstructs := s.clientConstructs + 1 })

/-- The error kind the spec assigns to missing backend configuration. The
repository's sources define no such exception; this type exists so that the
spec's claim "fails with `ConfigurationError`" is stateable against the code. -/
inductive StoreErr where
  | ConfigurationError
deriving DecidableEq, Repr

/-- `get_chroma_client` with an explicit error channel. The body of the source
function is straight-line code with no `raise` and no credential check, so its
error-typed embedding always returns `ok`. -/
def get_chroma_client_E (env : Env) (s : ConnState) :
    Except StoreErr (ClientV × ConnState) :=
  Except.ok (get_chroma_client env s)

/-- `get_chroma_collection` from `scripts/chroma_connection.py`, sequential
semantics: obtain the client via `get_chroma_client` (the `Depends` default),
then, if the global `_collection` is `None`, construct it by
`client.get_or_create_collection(name="my_collection")` and cache it; return
the cached collection. -/
def get_chroma_collection (env : Env) (s : ConnState) : CollectionV × ConnState :=
  let cs := get_chroma_client env s
  match cs.2.collection with
  | some col => (col, cs.2)
  | none =>
      let col := get_or_create_collection cs.1 "my_collection"
      (col, { cs.2 with collection := some col,
                        collConstructs := cs.2.collConstructs + 1 })

/-- A call into the connection module, for sequencing sequential accesses. -/
inductive ConnCall where
  | getClient
  | getCollection
deriving DecidableEq, Repr

/-- Execute one accessor call for its state effect. -/
def connStep (env : Env) (c : ConnCall) (s : ConnState) : ConnState :=
  match c with
  | ConnCall.getClient => (get_chroma_client env s).2
  | ConnCall.getCollection => (get_chroma_collection env s).2

/-- Execute a sequence of accessor calls from a starting state. -/
def runCalls (env : Env) (calls : List ConnCall) (s : ConnState) : ConnState :=
  match calls with
  | [] => s
  | c :: rest => runCalls env rest (connStep env c s)

/-- Reachability invariant of the connection-module state: each construction
has run at most once, a construction has run exactly when its global is
cached, any cached collection is the client's `"my_collection"` collection,
and a cached collection implies a cached client. -/
def ConnInv (s : ConnState) : Prop :=
  s.clientConstructs ≤ 1 ∧ s.collConstructs ≤ 1 ∧
  (s.client = none → s.clientConstructs = 0) ∧
  (s.collection = none → s.collConstructs = 0) ∧
  (∀ col, s.collection = some col → col.name = "my_collection") ∧
  (s.collection.isSome → s.client.isSome)

/-!
Interleaved semantics of two concurrent first-time `get_chroma_client` calls.

The Python source guards construction with a plain check of the module global
(`if _client is None:`) followed — only after the `CloudClient(...)` call
returns — by the assignment `_client = ...`. Between the check and the
assignment the thread can be preempted (the construction performs network
I/O). Each thread is therefore modelled with two atomic steps: (1) read the
global and decide the branch; (2) if the branch decided to construct, run the
construction and write the global. Client instances are identified by their
construction serial number, so distinct constructions yield distinct
instances, as distinct Python objects are.
-/

/-- Shared and per-thread state for two interleaved `get_chroma_client`
calls. `pc = 0`: before the `None` check; `pc = 1`: observed `None`, about to
construct and assign; `pc = 2`: returned. `res` is the instance the call
returns, tagged by construction serial number. -/
structure RaceState where
  sharedClient : Option Nat
  constructs : Nat
  pc1 : Nat
  res1 : Option Nat
  pc2 : Nat
  res2 : Option Nat
deriving DecidableEq, Repr

/-- Both threads poised to make their first-time call; the global is `None`. -/
def raceInit : RaceState := ⟨none, 0, 0, none, 0, none⟩

/-- One atomic step of the scheduled thread (`false` = thread 1, `true` =
thread 2) of the check-then-construct-then-assign body of
`get_chroma_client`. -/
def raceStep (s : RaceState) (t : Bool) : RaceState :=
  match t with
  | false =>
      match s.pc1 with
      | 0 =>
          match s.sharedClient with
          | none => { s with pc1 := 1 }
          | some c => { s with pc1 := 2, res1 := some c }
      | 1 => { s with sharedClient := some s.constructs,
                      constructs := s.constructs + 1,
                      res1 := some s.constructs, pc1 := 2 }
      | _ => s
  | true =>
      match s.pc2 with
      | 0 =>
          match s.sharedClient with
          | none => { s with pc2 := 1 }
          | some c => { s with pc2 := 2, res2 := some c }
      | 1 => { s with sharedClient := some s.constructs,
                      constructs := s.constructs + 1,
                      res2 := some s.constructs, pc2 := 2 }
      | _ => s

/-- Run the two interleaved calls under a schedule (list of which thread takes
the next atomic step). -/
def runRace (sched : List Bool) : RaceState :=
  sched.foldl raceStep raceInit

/-- Modelled from the spec (the EmbeddingStore wrapper served as
`scripts.app:app` is not among the sources): an embedding record
`{id, vector, text}`, owned by the store. -/
structure EmbeddingRecord where
  rid : String
  vector : List Rat
  text : String
deriving DecidableEq, Repr

/-- Modelled from the spec: the store's record collection. -/
abbrev Store : Type := List EmbeddingRecord

/-- Modelled from the spec: `EmbeddingStore.add(text, id)` computes an
embedding vector for `text` (via the collection's embedding function `embed`)
and upserts `{id, vector, text}`; if `id` already exists the record is
replaced (last-write-wins). Replacement is modelled as removing any prior
record for `id` and inserting the new one. -/
def Store.add (embed : String → List Rat) (s : Store) (text idv : String) :
    Store :=
  s.filter (fun r => !(r.rid == idv)) ++ [⟨idv, embed text, text⟩]

/-- The records a store holds for a given id. -/
def Store.recordsFor (s : Store) (idv : String) : Store :=
  s.filter (fun r => r.rid == idv)

/-- A retrieved passage `{text, score}` (spec data model; scores are the
backend's similarity values, modelled as rationals). -/
structure RetrievedPassage where
  text : String
  score : Rat
deriving DecidableEq, Repr

/-- An answer `{text, source_passages}` (spec data model). -/
structure Answer where
  text : String
  source_passages : List RetrievedPassage
deriving DecidableEq, Repr

/-- The error the pipeline raises on an empty or whitespace-only query
(spec error model). -/
inductive RagError where
  | InvalidQueryError
deriving DecidableEq, Repr

/-- A string that is empty or consists only of whitespace — the queries the
spec calls malformed (`answer("")`, `answer("   ")`). -/
def isBlank (s : String) : Bool :=
  s.data.all Char.isWhitespace

/-- Truncate a string to its first `n` characters. -/
def truncateTo (n : Nat) (s : String) : String :=
  ⟨s.data.take n⟩

/-- Modelled from the spec (the generator module served as `scripts.app:app`
is not among the sources): `MockGenerator.generate(query, context)`
synthesizes "Based on the available information: <first context passage,
possibly truncated>." from the context alone — a pure function of its
arguments, with no external calls and no randomness. -/
def MockGenerator.generate (_q : String) (ctx : List String) : String :=
  "Based on the available information: " ++ truncateTo 200 (ctx.headD "") ++ "."

/-- The canned answer text the pipeline returns when retrieval is empty
(spec: a fixed "no information available" answer). -/
def noInfoText : String := "No information available."

/-- The outcome of one `RagPipeline.answer` call: the result, and whether the
store and the generator were invoked during the call. -/
structure PipelineRun where
  result : Except RagError Answer
  storeCalled : Bool
  genCalled : Bool
deriving Repr

/-- Modelled from the spec (the RagPipeline module served as `scripts.app:app`
is not among the sources): `RagPipeline.answer(query)` validates that the
query is non-empty (empty and whitespace-only fail with `InvalidQueryError`
before touching the store or the generator); calls `EmbeddingStore.query`
with `k = 1`; if the result set is empty, returns the canned no-information
`Answer` without invoking the generator; otherwise passes the retrieved
passage texts, in ranking order, to `AnswerGenerator.generate` and wraps the
result together with the retrieved passages. The store is abstracted as the
query function `sq` and the generator as `gen`. -/
def RagPipeline.answer (sq : String → Nat → List RetrievedPassage)
    (gen : String → List String → String) (q : String) : PipelineRun :=
  if isBlank q then ⟨Except.error RagError.InvalidQueryError, false, false⟩
  else
    let ps := sq q 1
    if ps.isEmpty then ⟨Except.ok ⟨noInfoText, []⟩, true, false⟩
    else ⟨Except.ok ⟨gen q (ps.map (fun p => p.text)), ps⟩, true, true⟩

/-- A trivial store-query function (empty store) for concrete witnesses. -/
def sq0 : String → Nat → List RetrievedPassage := fun _ _ => []

/-- A trivial generator for concrete witnesses. -/
def gen0 : String → List String → String := fun _ _ => ""

/-- Modelled from the spec (the HTTP-facing module served as
`scripts.app:app` is not among the sources; `semantic_test.py` calls its
`/add`, `/query` and `/health` operations): the inbound requests the core
accepts from the request layer. -/
inductive Request where
  | addReq (text : String)
  | queryReq (q : String)
  | healthReq
deriving DecidableEq, Repr

/-- Modelled from the spec: the responses of the three operations — a
success/failure status for add, an `{answer: string}` object for query (or a
surfaced error), and a liveness success. -/
inductive Response where
  | addResp (success : Bool)
  | queryResp (answer : String)
  | errResp (e : RagError)
  | healthResp (ok : Bool)
deriving DecidableEq, Repr

/-- Modelled from the spec: the core's operation surface. `addDoc` abstracts
`EmbeddingStore.add` on the raw text (returning whether ingestion succeeded);
`sq`/`gen` abstract the store query and the generator as in
`RagPipeline.answer`. Query errors surface to the caller rather than being
swallowed. -/
def handle (sq : String → Nat → List RetrievedPassage)
    (gen : String → List String → String) (addDoc : String → Bool) :
    Request → Response
  | Request.addReq t => Response.addResp (addDoc t)
  | Request.queryReq q =>
      match (RagPipeline.answer sq gen q).result with
      | Except.ok a => Response.queryResp a.text
      | Except.error e => Response.errResp e
  | Request.healthReq => Response.healthResp true

/-- A trivial ingestion function for concrete witnesses. -/
def addDoc0 : String → Bool := fun _ => true

/-- Does the character list `hay` start with `needle`? -/
def startsWithL : List Char → List Char → Bool
  | _, [] => true
  | [], _ :: _ => false
  | h :: hs, n :: ns => h == n && startsWithL hs ns

/-- Does `hay` contain `needle` as a contiguous substring (Python's
`needle in hay` on strings, over character lists)? -/
def hasSub : List Char → List Char → Bool
  | [], needle => needle.isEmpty
  | c :: t, needle => startsWithL (c :: t) needle || hasSub t needle

/-- The characters of `"kubernetes"`, the keyword `ensure_data_loaded`
probes for. -/
def kubeChars : List Char := "kubernetes".data

/-- The probe heuristic of `ensure_data_loaded` in `semantic_test.py`:
given the outcome of `POST /query?q=Kubernetes` (`none` models a raised
request exception; otherwise the HTTP status and the parsed `answer` field,
`""` when absent), data counts as already loaded exactly when the status is
200, the answer is longer than 10 characters, and the lowercased answer
contains `"kubernetes"`. -/
def probeSaysLoaded : Option (Nat × String) → Bool
  | some (st, ans) =>
      st == 200 && decide (ans.length > 10)
        && hasSub (ans.data.map Char.toLower) kubeChars
  | none => false

/-- The external outcomes `ensure_data_loaded` depends on: the probe query's
outcome, the attempt to read `inputs/k8s.txt` (`none` models an exception),
and the outcome of `POST /add` (`none` models a raised request exception;
otherwise the HTTP status and whether the JSON `status` field equals
`"success"`). -/
structure LoadEnv where
  probe : Option (Nat × String)
  file : Option String
  addResp : Option (Nat × Bool)
deriving DecidableEq, Repr

/-- What one `ensure_data_loaded` call did: the value it returned, whether it
took the early "data appears to be loaded" return, whether it entered the
load-the-file branch, and whether it reached the `POST /add` call. -/
structure LoadOutcome where
  result : Bool
  decidedLoaded : Bool
  attemptedLoad : Bool
  posted : Bool
deriving DecidableEq, Repr

/-- A concrete probe outcome for witnesses: status 200 with an answer longer
than 10 characters that mentions Kubernetes. -/
def loadEnvW : LoadEnv :=
  ⟨some (200, "Kubernetes is an orchestration system"), none, none⟩

/-- The load branch of `ensure_data_loaded`: read `inputs/k8s.txt` (an
exception is caught and the function returns `False` without posting), post
the text to `/add` (an exception is caught and the function returns `False`),
and return `True` exactly when the post returned status 200 with JSON
`status == "success"`. -/
def loadBranch (e : LoadEnv) : LoadOutcome :=
  match e.file with
  | none => ⟨false, false, true, false⟩
  | some _ =>
      match e.addResp with
      | none => ⟨false, false, true, true⟩
      | some (st, success) => ⟨st == 200 && success, false, true, true⟩

/-- `ensure_data_loaded` from `semantic_test.py`: probe the query endpoint;
if the probe heuristic says data is loaded, return `True` immediately
(skipping the add endpoint); otherwise attempt to load `inputs/k8s.txt` via
`POST /add`. -/
def ensure_data_loaded (e : LoadEnv) : LoadOutcome :=
  if probeSaysLoaded e.probe then ⟨true, true, false, false⟩
  else loadBranch e

/-! ### Helper lemmas about the connection module -/

/-- A cached client is returned as-is, with the state untouched. -/
theorem gcc_cached (env : Env) (s : ConnState) (c : ClientV)
    (h : s.client = some c) : get_chroma_client env s = (c, s) := by
  simp [get_chroma_client, h]

/-- A first-time client access constructs the `CloudClient` from the three
environment variables, caches it and bumps the construction count. -/
theorem gcc_fresh (env : Env) (s : ConnState) (h : s.client = none) :
    get_chroma_client env s =
      (CloudClient (env "CHROMA_API_KEY") (env "CHROMA_TENANT")
        (env "CHROMA_DATABASE"),
       { s with
           client := some (CloudClient (env "CHROMA_API_KEY")
             (env "CHROMA_TENANT") (env "CHROMA_DATABASE")),
           clientConstructs := s.clientConstructs + 1 }) := by
  simp [get_chroma_client, h]

/-- After `get_chroma_client`, the cached client is the returned client. -/
theorem gcc_client_some (env : Env) (s : ConnState) :
    (get_chroma_client env s).2.client = some (get_chroma_client env s).1 := by
  cases h : s.client <;> simp [get_chroma_client, h]

/-- `get_chroma_client` does not touch the cached collection. -/
theorem gcc_collection_eq (env : Env) (s : ConnState) :
    (get_chroma_client env s).2.collection = s.collection := by
  cases h : s.client <;> simp [get_chroma_client, h]

/-- `get_chroma_client` does not touch the collection-construction count. -/
theorem gcc_collConstructs_eq (env : Env) (s : ConnState) :
    (get_chroma_client env s).2.collConstructs = s.collConstructs := by
  cases h : s.client <;> simp [get_chroma_client, h]

/-- A cached collection is returned as-is over the post-client state. -/
theorem gcoll_cached (env : Env) (s : ConnState) (col : CollectionV)
    (h : (get_chroma_client env s).2.collection = some col) :
    get_chroma_collection env s = (col, (get_chroma_client env s).2) := by
  simp [get_chroma_collection, h]

/-- A first-time collection access constructs it under the name
`"my_collection"`, caches it and bumps the construction count. -/
theorem gcoll_fresh (env : Env) (s : ConnState)
    (h : (get_chroma_client env s).2.collection = none) :
    get_chroma_collection env s =
      (get_or_create_collection (get_chroma_client env s).1 "my_collection",
       { (get_chroma_client env s).2 with
           collection := some (get_or_create_collection
             (get_chroma_client env s).1 "my_collection"),
           collConstructs := (get_chroma_client env s).2.collConstructs + 1 }) := by
  simp [get_chroma_collection, h]

/-- The module-load state satisfies the reachability invariant. -/
theorem connInv_init : ConnInv initState := by
  simp [ConnInv, initState]

/-- `get_chroma_client` preserves the reachability invariant. -/
theorem connInv_client (env : Env) (s : ConnState) (h : ConnInv s) :
    ConnInv (get_chroma_client env s).2 := by
  obtain ⟨h1, h2, h3, h4, h5, h6⟩ := h
  cases hc : s.client with
  | some c =>
      rw [gcc_cached env s c hc]
      exact ⟨h1, h2, h3, h4, h5, h6⟩
  | none =>
      rw [gcc_fresh env s hc]
      refine ⟨?_, h2, ?_, h4, h5, ?_⟩
      · simp [h3 hc]
      · intro hno; simp at hno
      · intro _; simp

/-- `get_chroma_collection` preserves the reachability invariant. -/
theorem connInv_coll (env : Env) (s : ConnState) (h : ConnInv s) :
    ConnInv (get_chroma_collection env s).2 := by
  have h' := connInv_client env s h
  obtain ⟨g1, g2, g3, g4, g5, g6⟩ := h'
  cases hcol : (get_chroma_client env s).2.collection with
  | some col =>
      rw [gcoll_cached env s col hcol]
      exact ⟨g1, g2, g3, g4, g5, g6⟩
  | none =>
      rw [gcoll_fresh env s hcol]
      refine ⟨g1, ?_, g3, ?_, ?_, ?_⟩
      · simp [g4 hcol]
      · intro hno; simp at hno
      · intro col hcol2
        simp at hcol2
        rw [← hcol2]
        rfl
      · simp [gcc_client_some env s]

/-- One accessor call preserves the reachability invariant. -/
theorem connInv_step (env : Env) (c : ConnCall) (s : ConnState)
    (h : ConnInv s) : ConnInv (connStep env c s) := by
  cases c with
  | getClient => exact connInv_client env s h
  | getCollection => exact connInv_coll env s h

/-- Any sequence of accessor calls preserves the reachability invariant. -/
theorem connInv_runCalls (env : Env) (calls : List ConnCall) (s : ConnState)
    (h : ConnInv s) : ConnInv (runCalls env calls s) := by
  induction calls generalizing s with
  | nil => exact h
  | cons c rest ih => exact ih _ (connInv_step env c s h)

/-! ### Claim theorems -/

/-- C3, counterexample: the claim says store initialization with a remote
backend and no credentials fails with `ConfigurationError`. On the code it
does not: with every `CHROMA_*` variable unset (`envEmpty`) and the globals
uninitialized, `get_chroma_client` succeeds and constructs the `CloudClient`
with all three credential values missing (`none`), rather than failing. -/
theorem get_chroma_client_no_configuration_error_cex :
    get_chroma_client_E envEmpty initState ≠
      Except.error StoreErr.ConfigurationError ∧
    get_chroma_client_E envEmpty initState =
      Except.ok (⟨none, none, none⟩, ⟨some ⟨none, none, none⟩, none, 1, 0⟩) := by
  constructor
  · intro h
    simp [get_chroma_client_E] at h
  · rfl

/-- C3, amended: `get_chroma_client` performs no credential validation and has
no failure path at all: every call returns `ok`, and a first-time call with
all credential variables unset constructs the `CloudClient` with the missing
(`none`) credential values passed straight through. -/
theorem get_chroma_client_passes_missing_creds (env : Env) (s : ConnState)
    (hc : s.client = none)
    (h1 : env "CHROMA_API_KEY" = none) (h2 : env "CHROMA_TENANT" = none)
    (h3 : env "CHROMA_DATABASE" = none) :
    (∀ env2 : Env, ∀ s2 : ConnState,
        ∃ r, get_chroma_client_E env2 s2 = Except.ok r) ∧
    get_chroma_client_E env s =
      Except.ok (⟨none, none, none⟩,
        { s with client := some ⟨none, none, none⟩,
                 clientConstructs := s.clientConstructs + 1 }) := by
  constructor
  · intro env2 s2
    exact ⟨_, rfl⟩
  · simp [get_chroma_client_E, get_chroma_client, hc, h1, h2, h3, CloudClient]

/-- C3, witness: the amended theorem applied to the empty environment and the
module-load state. -/
theorem get_chroma_client_passes_missing_creds_witness :
    (∀ env2 : Env, ∀ s2 : ConnState,
        ∃ r, get_chroma_client_E env2 s2 = Except.ok r) ∧
    get_chroma_client_E envEmpty initState =
      Except.ok (⟨none, none, none⟩,
        { initState with client := some ⟨none, none, none⟩,
                         clientConstructs := initState.clientConstructs + 1 }) :=
  get_chroma_client_passes_missing_creds envEmpty initState rfl rfl rfl rfl

/-- C4, counterexample: the claim says that for concurrent first-time calls
only the first caller performs construction and all callers observe the same
single instance. Under the interleaving in which both threads execute the
`if _client is None` check before either assigns (schedule thread 1, thread
2, thread 1, thread 2), the construction path runs twice and the two callers
return distinct instances. -/
theorem race_duplicate_construction_cex :
    (runRace [false, true, false, true]).constructs = 2 ∧
    (runRace [false, true, false, true]).res1 = some 0 ∧
    (runRace [false, true, false, true]).res2 = some 1 ∧
    (runRace [false, true, false, true]).res1 ≠
      (runRace [false, true, false, true]).res2 := by
  decide

/-- C4, amended: the lazy initialization in `get_chroma_client` is an
unsynchronized check-then-assign, so concurrent first-time calls that
interleave between the check and the assignment can each execute the
construction path and observe distinct instances; only serialized first-time
calls (each call's check and construction uninterleaved with the other's)
construct exactly once and observe the same single instance. -/
theorem serialized_first_calls_construct_once :
    ((runRace [false, false, true, true]).constructs = 1 ∧
     (runRace [false, false, true, true]).res1 = some 0 ∧
     (runRace [false, false, true, true]).res2 = some 0) ∧
    ((runRace [true, true, false, false]).constructs = 1 ∧
     (runRace [true, true, false, false]).res1 = some 0 ∧
     (runRace [true, true, false, false]).res2 = some 0) := by
  decide

/-- C5: over any sequence of sequential calls to `get_chroma_client` and
`get_chroma_collection` from the module-load state, the client and the
collection are each constructed at most once, and once a global is cached
every further call returns the identical cached instance with the state
unchanged. -/
theorem lazy_init_constructs_at_most_once (env : Env) (calls : List ConnCall) :
    (runCalls env calls initState).clientConstructs ≤ 1 ∧
    (runCalls env calls initState).collConstructs ≤ 1 ∧
    (∀ c, (runCalls env calls initState).client = some c →
      get_chroma_client env (runCalls env calls initState)
        = (c, runCalls env calls initState)) ∧
    (∀ col, (runCalls env calls initState).collection = some col →
      get_chroma_collection env (runCalls env calls initState)
        = (col, runCalls env calls initState)) := by
  obtain ⟨h1, h2, h3, h4, h5, h6⟩ :=
    connInv_runCalls env calls initState connInv_init
  refine ⟨h1, h2, ?_, ?_⟩
  · intro c hc
    exact gcc_cached env (runCalls env calls initState) c hc
  · intro col hcol
    have hcs : (runCalls env calls initState).client.isSome := by
      apply h6
      simp [hcol]
    obtain ⟨c, hc⟩ := Option.isSome_iff_exists.mp hcs
    have hq := gcc_cached env (runCalls env calls initState) c hc
    rw [gcoll_cached env (runCalls env calls initState) col
      (by rw [hq]; exact hcol), hq]

/-- C5, witness: after one sequential `get_chroma_collection` call in the
empty environment, the cached collection is returned identically by the next
call, with the state unchanged. -/
theorem lazy_init_constructs_at_most_once_witness :
    get_chroma_collection envEmpty
        (runCalls envEmpty [ConnCall.getCollection] initState)
      = (⟨⟨none, none, none⟩, "my_collection"⟩,
         runCalls envEmpty [ConnCall.getCollection] initState) :=
  (lazy_init_constructs_at_most_once envEmpty [ConnCall.getCollection]).2.2.2
    ⟨⟨none, none, none⟩, "my_collection"⟩ rfl

/-- C10: every `get_chroma_collection` call yields a collection handle named
`"my_collection"`: along any sequence of calls from the module-load state the
handle is bound to that fixed name, and whenever the collection is
constructed the requested name is `"my_collection"` regardless of the
process environment — no configured collection-name option is consulted. -/
theorem collection_name_hardcoded (env : Env) (calls : List ConnCall) :
    (get_chroma_collection env (runCalls env calls initState)).1.name
      = "my_collection" ∧
    (∀ env2 : Env, ∀ s : ConnState, s.collection = none →
      (get_chroma_collection env2 s).1.name = "my_collection") := by
  have hfresh : ∀ env2 : Env, ∀ s : ConnState, s.collection = none →
      (get_chroma_collection env2 s).1.name = "my_collection" := by
    intro env2 s hnone
    rw [gcoll_fresh env2 s (by rw [gcc_collection_eq]; exact hnone)]
    rfl
  refine ⟨?_, hfresh⟩
  obtain ⟨h1, h2, h3, h4, h5, h6⟩ :=
    connInv_runCalls env calls initState connInv_init
  cases hcol : (runCalls env calls initState).collection with
  | none => exact hfresh env (runCalls env calls initState) hcol
  | some col =>
      rw [gcoll_cached env (runCalls env calls initState) col
        (by rw [gcc_collection_eq]; exact hcol)]
      exact h5 col hcol

/-- C10, witness: the theorem applied to the empty environment and the empty
call sequence. -/
theorem collection_name_hardcoded_witness :
    (get_chroma_collection envEmpty (runCalls envEmpty [] initState)).1.name
      = "my_collection" :=
  (collection_name_hardcoded envEmpty []).1

/-- C1: after `add(text, id)` followed by `add(text2, id)` with the same `id`,
the store holds exactly one record for `id`, and its text is `text2`
(last-write-wins), whatever the store held before. -/
theorem store_add_last_write_wins (embed : String → List Rat) (s : Store)
    (text text2 idv : String) :
    Store.recordsFor (Store.add embed (Store.add embed s text idv) text2 idv)
        idv
      = [⟨idv, embed text2, text2⟩] := by
  unfold Store.add Store.recordsFor
  simp [List.filter_append, List.filter_filter]

/-- C1, witness: the theorem applied to a concrete embedding function, the
empty store, and concrete texts and id. -/
theorem store_add_last_write_wins_witness :
    Store.recordsFor
        (Store.add (fun _ => []) (Store.add (fun _ => []) [] "a" "x") "b" "x")
        "x"
      = [⟨"x", [], "b"⟩] :=
  store_add_last_write_wins (fun _ => []) [] "a" "b" "x"

/-- C2: the core's request surface consists of exactly the three operations —
every request is an add, a query or a liveness check; an add-document request
takes raw text and yields a success/failure status; a query request takes a
question string and yields an `{answer: string}` object or a surfaced error;
and the liveness check yields success. -/
theorem core_api_exposes_three_ops :
    (∀ r : Request, (∃ t, r = Request.addReq t) ∨
      (∃ q, r = Request.queryReq q) ∨ r = Request.healthReq) ∧
    (∀ sq : String → Nat → List RetrievedPassage,
      ∀ gen : String → List String → String, ∀ ad : String → Bool,
      ∀ t : String,
        ∃ ok, handle sq gen ad (Request.addReq t) = Response.addResp ok) ∧
    (∀ sq : String → Nat → List RetrievedPassage,
      ∀ gen : String → List String → String, ∀ ad : String → Bool,
      ∀ q : String,
        (∃ ans, handle sq gen ad (Request.queryReq q) = Response.queryResp ans)
        ∨ (∃ e, handle sq gen ad (Request.queryReq q) = Response.errResp e)) ∧
    (∀ sq : String → Nat → List RetrievedPassage,
      ∀ gen : String → List String → String, ∀ ad : String → Bool,
        handle sq gen ad Request.healthReq = Response.healthResp true) := by
  refine ⟨?_, ?_, ?_, ?_⟩
  · intro r
    cases r with
    | addReq t => exact Or.inl ⟨t, rfl⟩
    | queryReq q => exact Or.inr (Or.inl ⟨q, rfl⟩)
    | healthReq => exact Or.inr (Or.inr rfl)
  · intro sq gen ad t
    exact ⟨ad t, rfl⟩
  · intro sq gen ad q
    cases hr : (RagPipeline.answer sq gen q).result with
    | ok a =>
        exact Or.inl ⟨a.text, by simp only [handle]; rw [hr]⟩
    | error e =>
        exact Or.inr ⟨e, by simp only [handle]; rw [hr]⟩
  · intro sq gen ad
    rfl

/-- C2, witness: the liveness conjunct of the theorem applied to concrete
store, generator and ingestion functions. -/
theorem core_api_exposes_three_ops_witness :
    handle sq0 gen0 addDoc0 Request.healthReq = Response.healthResp true :=
  core_api_exposes_three_ops.2.2.2 sq0 gen0 addDoc0

/-- C6: when the query is not blank (so the store is consulted) and the store
returns the empty result set, `RagPipeline.answer` returns the canned
no-information `Answer` with no source passages, the store was called, and
the generator was not invoked. -/
theorem pipeline_empty_retrieval_short_circuit
    (sq : String → Nat → List RetrievedPassage)
    (gen : String → List String → String) (q : String)
    (hq : isBlank q = false) (he : sq q 1 = []) :
    RagPipeline.answer sq gen q
      = ⟨Except.ok ⟨noInfoText, []⟩, true, false⟩ := by
  simp [RagPipeline.answer, hq, he]

/-- C6, witness: the theorem applied to the empty store-query function, a
concrete generator and the query `"hello"`. -/
theorem pipeline_empty_retrieval_short_circuit_witness :
    RagPipeline.answer sq0 gen0 "hello"
      = ⟨Except.ok ⟨noInfoText, []⟩, true, false⟩ :=
  pipeline_empty_retrieval_short_circuit sq0 gen0 "hello" (by decide) rfl

/-- C7: for every blank query — empty or whitespace-only —
`RagPipeline.answer` fails with `InvalidQueryError` and calls neither the
store nor the generator. -/
theorem pipeline_rejects_blank_query
    (sq : String → Nat → List RetrievedPassage)
    (gen : String → List String → String) (q : String)
    (hq : isBlank q = true) :
    RagPipeline.answer sq gen q
      = ⟨Except.error RagError.InvalidQueryError, false, false⟩ := by
  simp [RagPipeline.answer, hq]

/-- C7, witness: the theorem applied to `answer("")` and `answer("   ")`. -/
theorem pipeline_rejects_blank_query_witness :
    RagPipeline.answer sq0 gen0 ""
      = ⟨Except.error RagError.InvalidQueryError, false, false⟩ ∧
    RagPipeline.answer sq0 gen0 "   "
      = ⟨Except.error RagError.InvalidQueryError, false, false⟩ :=
  ⟨pipeline_rejects_blank_query sq0 gen0 "" (by decide),
   pipeline_rejects_blank_query sq0 gen0 "   " (by decide)⟩

/-- C8: `MockGenerator.generate` is deterministic — any two calls with
identical query and context return identical text. -/
theorem mock_generate_deterministic (q1 q2 : String) (c1 c2 : List String)
    (hq : q1 = q2) (hc : c1 = c2) :
    MockGenerator.generate q1 c1 = MockGenerator.generate q2 c2 := by
  rw [hq, hc]

/-- C8, witness: the theorem applied to a concrete repeated input. -/
theorem mock_generate_deterministic_witness :
    MockGenerator.generate "What is Kubernetes?" ["ctx"]
      = MockGenerator.generate "What is Kubernetes?" ["ctx"] :=
  mock_generate_deterministic "What is Kubernetes?" "What is Kubernetes?"
    ["ctx"] ["ctx"] rfl rfl

/-- C9: `ensure_data_loaded` takes the early "data appears to be loaded"
return — skipping the add endpoint — exactly when the probe query came back
with HTTP status 200 and an answer longer than 10 characters whose lowercased
text contains `"kubernetes"`; on that path it never posts and returns `True`,
and on every other probe outcome it proceeds to the branch that attempts to
load the input file via the add endpoint. -/
theorem ensure_data_loaded_probe_heuristic (e : LoadEnv) :
    ((ensure_data_loaded e).decidedLoaded = true ↔
      ∃ ans : String, e.probe = some (200, ans) ∧ ans.length > 10 ∧
        hasSub (ans.data.map Char.toLower) kubeChars = true) ∧
    ((ensure_data_loaded e).decidedLoaded = true →
      (ensure_data_loaded e).posted = false ∧
      (ensure_data_loaded e).result = true) ∧
    ((ensure_data_loaded e).decidedLoaded = false →
      (ensure_data_loaded e).attemptedLoad = true) := by
  have hload : (loadBranch e).decidedLoaded = false ∧
      (loadBranch e).attemptedLoad = true := by
    unfold loadBranch
    cases e.file with
    | none => exact ⟨rfl, rfl⟩
    | some t =>
        cases e.addResp with
        | none => exact ⟨rfl, rfl⟩
        | some p => exact ⟨rfl, rfl⟩
  cases hp : probeSaysLoaded e.probe with
  | true =>
      have hE : ensure_data_loaded e = ⟨true, true, false, false⟩ := by
        unfold ensure_data_loaded
        rw [hp]
        simp
      rw [hE]
      refine ⟨⟨fun _ => ?_, fun _ => rfl⟩, fun _ => ⟨rfl, rfl⟩,
        fun habs => Bool.noConfusion habs⟩
      cases hprobe : e.probe with
      | none =>
          rw [hprobe] at hp
          simp [probeSaysLoaded] at hp
      | some p =>
          obtain ⟨st, ans⟩ := p
          rw [hprobe] at hp
          simp only [probeSaysLoaded, Bool.and_eq_true, beq_iff_eq,
            decide_eq_true_eq] at hp
          obtain ⟨⟨hst, hlen⟩, hsubst⟩ := hp
          subst hst
          exact ⟨ans, rfl, hlen, hsubst⟩
  | false =>
      have hE : ensure_data_loaded e = loadBranch e := by
        unfold ensure_data_loaded
        rw [hp]
        simp
      rw [hE]
      refine ⟨?_, fun hembed => absurd hembed (by simp [hload.1]),
        fun _ => hload.2⟩
      rw [hload.1]
      simp only [Bool.false_eq_true, false_iff]
      intro hex
      obtain ⟨ans, hprobe, hlen, hsubst⟩ := hex
      rw [hprobe] at hp
      simp only [probeSaysLoaded] at hp
      have ht : (200 == 200 && decide (ans.length > 10)
          && hasSub (ans.data.map Char.toLower) kubeChars) = true := by
        simp [hlen, hsubst]
      rw [ht] at hp
      exact Bool.noConfusion hp

/-- C9, witness: the theorem applied to a probe outcome with status 200 and a
long Kubernetes-mentioning answer. -/
theorem ensure_data_loaded_probe_heuristic_witness :
    ((ensure_data_loaded loadEnvW).decidedLoaded = true ↔
      ∃ ans : String, loadEnvW.probe = some (200, ans) ∧ ans.length > 10 ∧
        hasSub (ans.data.map Char.toLower) kubeChars = true) ∧
    ((ensure_data_loaded loadEnvW).decidedLoaded = true →
      (ensure_data_loaded loadEnvW).posted = false ∧
      (ensure_data_loaded loadEnvW).result = true) ∧
    ((ensure_data_loaded loadEnvW).decidedLoaded = false →
      (ensure_data_loaded loadEnvW).attemptedLoad = true) :=
  ensure_data_loaded_probe_heuristic loadEnvW

end K8sRag
